import Mathlib

/-!
Verification of the phoebe-server session broker against its code.

The development shallowly embeds the parts of the repository the claims
touch:

* `worker/phoebe_worker.py` — the worker's REP dispatch loop (`PhoebeWorker.run`)
  and its bind address;
* `worker/proxy.py` — `send_command`, the per-call REQ channel;
* `api/command.py` — the `send` endpoint (lookup, ownership check, activity
  touch, RPC, telemetry, memory poll);
* `api/session.py` — `_check_ownership`, `end_session`, `session_memory`;
* `config.py` / `auth/api_key.py` — the `AuthConfig` dataclass and the
  API-key entry points.

External I/O (ZMQ transport, the PHOEBE computation, the database) is
represented by explicit parameters (a `TransportOutcome` for what the wire
does, an `exec` function for what a command handler computes, an effect
trace for the registry/telemetry calls the endpoint makes).  The session
manager module itself is not among the repository's files; the few
registry operations the endpoints call are modelled from the spec and
marked as such in their doc comments.
-/

namespace PhoebeServer

/-- JSON values as exchanged over the worker RPC channel (`recv_json` /
`send_json`).  Python dicts decoded from JSON have string keys, kept here as
association lists in insertion order. -/
inductive JValue where
  | null : JValue
  | bool (b : Bool) : JValue
  | num (n : Int) : JValue
  | str (s : String) : JValue
  | arr (elems : List JValue) : JValue
  | obj (fields : List (String × JValue)) : JValue
  deriving Repr

/-- Python `d.get(k)` on a decoded JSON object: `none` models Python `None`
(key absent); on a non-object it is unused by the embedded code. -/
def jget (v : JValue) (k : String) : Option JValue :=
  match v with
  | .obj fields => fields.lookup k
  | _ => none

/-- Python truthiness of a decoded JSON value (`bool(x)`). -/
def truthy : JValue → Bool
  | .null => false
  | .bool b => b
  | .num n => n != 0
  | .str s => s != ""
  | .arr elems => !elems.isEmpty
  | .obj fields => !fields.isEmpty

/-! ## Command Proxy — `worker/proxy.py` -/

/-- What the ZMQ wire does during one `send_command` call: the worker's
reply arrives, or `zmq.Again` is raised (RCVTIMEO/SNDTIMEO expired), or some
other `zmq.ZMQError` occurs on connect/send/recv. -/
inductive TransportOutcome where
  | reply (v : JValue) : TransportOutcome
  | timeout : TransportOutcome
  | transportError (msg : String) : TransportOutcome
  deriving Repr

/-- The per-call channel resources of `send_command`: whether `socket.close()`
and `ctx.term()` have run by the time the call is over. -/
structure ChannelState where
  socketClosed : Bool
  contextTerminated : Bool
  deriving Repr, DecidableEq

/-- How a Python call ends: a returned value, a raised `fastapi.HTTPException`
(status, detail), or some other exception propagating (by class name). -/
inductive PyOutcome (α : Type) where
  | value (a : α) : PyOutcome α
  | httpError (status : Nat) (detail : String) : PyOutcome α
  | raised (etype : String) : PyOutcome α
  deriving Repr

/-- The address `send_command` connects its REQ socket to
(`f"tcp://127.0.0.1:{port}"`). -/
def proxyConnectAddr (port : Nat) : String :=
  "tcp://127.0.0.1:" ++ toString port

/-- `send_command(port, command, timeout)` from `worker/proxy.py`, as a
function of what the wire does.  The `finally` block closes the socket and
terminates the context on every exit path, so every branch carries the fully
released `ChannelState`.  Only `zmq.Again` is caught (`except zmq.Again`);
any other `zmq.ZMQError` propagates, as does the `AssertionError` from
`assert isinstance(result, dict)` when the reply is not a JSON object. -/
def send_command (port : Nat) (command : JValue) (outcome : TransportOutcome) :
    PyOutcome JValue × ChannelState :=
  let released : ChannelState := ⟨true, true⟩
  match outcome with
  | .reply v =>
      match v with
      | .obj fields => (.value (.obj fields), released)
      | _ => (.raised "AssertionError", released)
  | .timeout =>
      (.value (.obj [("success", .bool false), ("error", .str "Worker timed out")]),
       released)
  | .transportError _ => (.raised "ZMQError", released)

/-! ## Worker dispatch loop — `worker/phoebe_worker.py` -/

/-- The address the worker binds its REP socket to
(`f"tcp://127.0.0.1:{port}"` in `PhoebeWorker.__init__`). -/
def workerBindAddr (port : Nat) : String :=
  "tcp://127.0.0.1:" ++ toString port

/-- The host component of a `tcp://host:port` address: the characters after
the 6-character scheme `tcp://` and before the first `:`. -/
def tcpHost (addr : String) : String :=
  String.mk ((addr.data.drop 6).takeWhile (fun c => c != ':'))

/-- The keys of `self.commands`, the worker's command-dispatch dict. -/
def workerCommands : List String :=
  ["ping", "get_parameter", "get_value", "set_value", "add_dataset",
   "remove_dataset", "run_compute", "run_solver", "load_bundle",
   "save_bundle", "get_datasets", "get_uniqueid",
   "is_parameter_constrained", "attach_params"]

/-- How `self.commands[command](**args)` ends: the handler's return value
(already in JSON form — `make_json_serializable` rebuilds a decoded JSON tree
unchanged), or a raised `Exception` carrying `str(e)` and
`traceback.format_exc()`. -/
inductive ExecResult where
  | ok (v : JValue) : ExecResult
  | exc (msg : String) (tb : String) : ExecResult

/-- What one iteration of the worker loop does with a received request:
the replies it sends on the REP socket, and the class of an exception
escaping the loop body, if any. -/
structure StepOutcome where
  sent : List JValue
  raised : Option String
  deriving Repr

/-- The reply of the `command not in self.commands` branch:
`{'success': False, 'error': f'API does not recognize command {command}.'}`. -/
def unrecognizedReply (name : String) : JValue :=
  .obj [("success", .bool false),
        ("error", .str ("API does not recognize command " ++ name ++ "."))]

/-- One iteration of `PhoebeWorker.run` on a received request, parameterized
by `exec`, what the dispatched handler does.

* a non-dict request hits `raise ValueError(...)` — nothing is sent;
* `args.pop('command')` on a dict without the key raises `KeyError`;
* `command not in self.commands` on an unhashable popped value (a decoded
  JSON list or object) raises `TypeError`;
* a hashable non-string command is in no string-keyed dict, so the
  unrecognized-command reply is sent, its name rendered by Python `str()`
  (`None` / `True` / `False` / decimal);
* a known string command runs under `try`: its return value is sent as
  `{'success': True, 'result': ...}`, an `Exception` as
  `{'success': False, 'error': str(e), 'traceback': ...}`. -/
def workerStep (exec : String → List (String × JValue) → ExecResult)
    (request : JValue) : StepOutcome :=
  match request with
  | .obj fields =>
      match fields.lookup "command" with
      | none => ⟨[], some "KeyError"⟩
      | some cmdVal =>
          let rest := fields.filter (fun p => p.1 != "command")
          match cmdVal with
          | .arr _ => ⟨[], some "TypeError"⟩
          | .obj _ => ⟨[], some "TypeError"⟩
          | .null => ⟨[unrecognizedReply "None"], none⟩
          | .bool b => ⟨[unrecognizedReply (cond b "True" "False")], none⟩
          | .num n => ⟨[unrecognizedReply (toString n)], none⟩
          | .str cmd =>
              if workerCommands.contains cmd then
                match exec cmd rest with
                | .ok v =>
                    ⟨[.obj [("success", .bool true), ("result", v)]], none⟩
                | .exc msg tb =>
                    ⟨[.obj [("success", .bool false), ("error", .str msg),
                            ("traceback", .str tb)]], none⟩
              else
                ⟨[unrecognizedReply cmd], none⟩
  | _ => ⟨[], some "ValueError"⟩

/-- The reply shapes of the worker RPC response contract:
`{success: true, result}` or `{success: false, error, traceback?}`. -/
def isReplyShape : JValue → Bool
  | .obj [("success", .bool true), ("result", _)] => true
  | .obj [("success", .bool false), ("error", .str _)] => true
  | .obj [("success", .bool false), ("error", .str _), ("traceback", .str _)] => true
  | _ => false

/-- Whether a decoded JSON value is hashable in Python (usable as a dict
key): lists and dicts are not. -/
def hashableJson : JValue → Bool
  | .arr _ => false
  | .obj _ => false
  | _ => true

/-! ## Session registry state and the `send` endpoint — `api/command.py` -/

/-- The per-session record the endpoints read: the worker's port and the
stored owner (`user_id`, absent when the session was created with auth
disabled). -/
structure SessionInfo where
  port : Nat
  user_id : Option String
  deriving Repr, DecidableEq

/-- The registry's session table, keyed by session id. -/
abbrev Registry : Type := List (String × SessionInfo)

/-- The authenticated user handed to an endpoint by `get_current_user`:
only its `user_id` field is read by the embedded endpoints. -/
structure User where
  user_id : String
  deriving Repr, DecidableEq

/-- Modelled from the spec: `get(id) → Session | NotFound` (§4.3) — the
session manager module itself is not among the repository's files; the
endpoint treats a falsy `info` as NotFound. -/
def get_server_info (reg : Registry) (session_id : String) : Option SessionInfo :=
  List.lookup session_id reg

/-- Modelled from the spec: `owner_of(id) → owner | None` (§4.3) — the stored
owner of the session, `None` when the id is absent or the session has no
owner. -/
def get_session_owner (reg : Registry) (session_id : String) : Option String :=
  (List.lookup session_id reg).bind (fun info => info.user_id)

/-- Modelled from the spec: `destroy(id, reason) → bool: false if not found`
(§4.3); only the returned boolean is read by the embedded endpoint. -/
def shutdown_server (reg : Registry) (session_id : String) : Bool :=
  (List.lookup session_id reg).isSome

/-- Modelled from the spec: the per-session `{session_id, memory_used_mb}`
sample (§6); `None` when the id is unknown (the endpoint maps `None` to 404).
`mem` stands for the sample a live worker would report. -/
def get_current_memory_usage (reg : Registry) (mem : String → Nat)
    (session_id : String) : Option Nat :=
  if (List.lookup session_id reg).isSome then some (mem session_id) else none

/-- The observable calls the `send` endpoint makes, in program order. -/
inductive Effect where
  | registryLookup (session_id : String) : Effect
  | activityTouch (session_id : String) : Effect
  | workerRpc (port : Nat) : Effect
  | telemetryLog (session_id : String) (command_name : JValue) (success : Bool)
      (error_message : Option JValue) : Effect
  | memoryPoll (session_id : String) : Effect
  deriving Repr

/-- The inline ownership test of the `send` endpoint:
`user is not None and owner is not None and owner != user['user_id']`. -/
def ownershipBlocked (user : Option User) (owner : Option String) : Bool :=
  match user, owner with
  | some u, some o => o != u.user_id
  | _, _ => false

/-- The detail string of the 403 ownership rejection. -/
def ownershipDetail : String := "You are not the owner of this session"

/-- The code of the `send` endpoint after the 404 and ownership guards:
activity touch, worker RPC (`send_command(port, command)`), telemetry record
(`database.log_command_execution`), memory poll — paired with the effect
trace.  When `send_command` raises, the exception propagates and the later
effects do not happen.  `success` is the truthiness of
`response.get('success', False)`; `error_message` is `response.get('error')`
when the command failed, else `None`.  (Wall-clock timing of the RPC is not
modelled.) -/
def send_after_guards (outcome : TransportOutcome) (session_id : String)
    (command : List (String × JValue)) (info : SessionInfo) :
    PyOutcome JValue × List Effect :=
  let port := info.port
  let command_name := (List.lookup "command" command).getD (.str "unknown")
  match send_command port (.obj command) outcome with
  | (.raised e, _) =>
      (.raised e, [.activityTouch session_id, .workerRpc port])
  | (.httpError s d, _) =>
      (.httpError s d, [.activityTouch session_id, .workerRpc port])
  | (.value response, _) =>
      let success := truthy ((jget response "success").getD (.bool false))
      let error_message := if success then none else jget response "error"
      (.value response,
       [.activityTouch session_id, .workerRpc port,
        .telemetryLog session_id command_name success error_message,
        .memoryPoll session_id])

/-- The `send` endpoint of `api/command.py`: registry lookup (404 on a falsy
`info`), inline ownership check (403), then `send_after_guards`.  The second
component is the trace of registry/RPC/telemetry calls in program order. -/
def send (reg : Registry) (outcome : TransportOutcome) (session_id : String)
    (command : List (String × JValue)) (user : Option User) :
    PyOutcome JValue × List Effect :=
  match get_server_info reg session_id with
  | none => (.httpError 404 "Invalid session ID", [.registryLookup session_id])
  | some info =>
      if ownershipBlocked user info.user_id then
        (.httpError 403 ownershipDetail, [.registryLookup session_id])
      else
        let after := send_after_guards outcome session_id command info
        (after.1, .registryLookup session_id :: after.2)

/-! ## Ownership helper and endpoints — `api/session.py` -/

/-- `_check_ownership` from `api/session.py`: the 403 `HTTPException` it
raises, or `none` when the check passes (auth disabled, unknown session,
ownerless session, or matching owner). -/
def check_ownership (reg : Registry) (session_id : String) (user : Option User) :
    Option (Nat × String) :=
  match user with
  | none => none
  | some u =>
      match get_session_owner reg session_id with
      | none => none
      | some owner =>
          if owner != u.user_id then some (403, ownershipDetail) else none

/-- The `end_session` endpoint: ownership check, then `shutdown_server`;
a `False` result becomes 404. -/
def end_session (reg : Registry) (session_id : String) (user : Option User) :
    PyOutcome JValue :=
  match check_ownership reg session_id user with
  | some (s, d) => .httpError s d
  | none =>
      let success := shutdown_server reg session_id
      if !success then .httpError 404 "Session not found"
      else .value (.obj [("success", .bool success)])

/-- The `session_memory` endpoint: ownership check, then
`get_current_memory_usage`; a `None` result becomes 404. -/
def session_memory (reg : Registry) (mem : String → Nat) (session_id : String)
    (user : Option User) : PyOutcome JValue :=
  match check_ownership reg session_id user with
  | some (s, d) => .httpError s d
  | none =>
      match get_current_memory_usage reg mem session_id with
      | none => .httpError 404 "Session not found"
      | some m => .value (.obj [("mem_used", .num m)])

/-! ## API-key authentication — `config.py` and `auth/api_key.py` -/

/-- The `AuthConfig` dataclass of `config.py`, with its defaults.  It is
`@dataclass(frozen=True)`, so an instance carries exactly these six
attributes and no others. -/
structure AuthConfig where
  mode : String := "none"
  password : String := ""
  jwt_secret_key : String := ""
  jwt_algorithm : String := "HS256"
  jwt_expire_minutes : Nat := 1440
  jwt_issuer : String := ""
  deriving Repr

/-- A Python attribute value of the shapes `verify_api_key` consumes. -/
inductive PyVal where
  | pbool (b : Bool) : PyVal
  | pstr (s : String) : PyVal
  | pnum (n : Nat) : PyVal
  | plist (xs : List String) : PyVal
  deriving Repr, DecidableEq

/-- Python attribute lookup on an `AuthConfig` instance: the dataclass
declares exactly the six fields above, and being frozen it acquires no other
instance attributes, so any other name raises `AttributeError` (`none`). -/
def authAttr (cfg : AuthConfig) : String → Option PyVal
  | "mode" => some (.pstr cfg.mode)
  | "password" => some (.pstr cfg.password)
  | "jwt_secret_key" => some (.pstr cfg.jwt_secret_key)
  | "jwt_algorithm" => some (.pstr cfg.jwt_algorithm)
  | "jwt_expire_minutes" => some (.pnum cfg.jwt_expire_minutes)
  | "jwt_issuer" => some (.pstr cfg.jwt_issuer)
  | _ => none

/-- Python truthiness of an attribute value. -/
def pyTruthy : PyVal → Bool
  | .pbool b => b
  | .pstr s => s != ""
  | .pnum n => n != 0
  | .plist xs => !xs.isEmpty

/-- Python `for valid_key in v`: the strings a `for` loop over the value
would yield (a list yields its items, a string its characters); `none` when
the value is not iterable (`TypeError`). -/
def pyIterStrings : PyVal → Option (List String)
  | .plist xs => some xs
  | .pstr s => some (s.data.map (fun c => String.mk [c]))
  | _ => none

/-- `verify_api_key` from `auth/api_key.py`, parameterized by the SHA-256
`hash_api_key` function and the `X-API-Key` header.  Its first action
evaluates `config.auth.enabled`; the key-scanning part would evaluate
`config.auth.api_keys`.  Both are Python attribute lookups on the
`AuthConfig` instance, modelled by `authAttr`. -/
def verify_api_key (cfg : AuthConfig) (hashKey : String → String)
    (x_api_key : Option String) : PyOutcome String :=
  match authAttr cfg "enabled" with
  | none => .raised "AttributeError"
  | some enabled =>
      if !pyTruthy enabled then .value "auth_disabled"
      else
        let missing : PyOutcome String :=
          .httpError 401 "Missing API key. Include X-API-Key header."
        match x_api_key with
        | none => missing
        | some key =>
            if key = "" then missing
            else
              match authAttr cfg "api_keys" with
              | none => .raised "AttributeError"
              | some keysVal =>
                  match pyIterStrings keysVal with
                  | none => .raised "TypeError"
                  | some keys =>
                      if keys.any (fun vk => hashKey key = hashKey vk) then
                        .value key
                      else .httpError 403 "Invalid API key"

/-- `is_auth_enabled` from `auth/api_key.py`: `return config.auth.enabled`. -/
def is_auth_enabled (cfg : AuthConfig) : PyOutcome PyVal :=
  match authAttr cfg "enabled" with
  | none => .raised "AttributeError"
  | some v => .value v

/-! ## Theorems -/

/-- Helper: `send_command` never produces an `HTTPException`-style outcome;
every call ends in a returned value or a propagating exception. -/
theorem send_command_fst_not_httpError (port : Nat) (command : JValue)
    (outcome : TransportOutcome) (s : Nat) (d : String) :
    (send_command port command outcome).1 ≠ .httpError s d := by
  cases outcome with
  | reply v => cases v <;> simp [send_command]
  | timeout => simp [send_command]
  | transportError m => simp [send_command]

/-- C2: on a receive timeout (`zmq.Again`), `send_command` returns the
ordinary value `{'success': False, 'error': 'Worker timed out'}` — it does
not raise — and the per-call socket and context are released. -/
theorem send_command_timeout_returns_value (port : Nat) (command : JValue) :
    send_command port command .timeout
      = (.value (.obj [("success", .bool false), ("error", .str "Worker timed out")]),
         ⟨true, true⟩) := rfl

/-- C3 counterexample: a non-timeout transport failure does not produce a
structured failure value — `send_command` lets the `zmq.ZMQError` propagate
to its caller. -/
theorem send_command_transport_error_cex :
    (send_command 6560 (.obj [("command", .str "ping")])
        (.transportError "Connection refused")).1 = .raised "ZMQError" ∧
    (∀ v : JValue, (send_command 6560 (.obj [("command", .str "ping")])
        (.transportError "Connection refused")).1 ≠ .value v) := by
  refine ⟨rfl, fun v h => ?_⟩
  simp [send_command] at h

/-- C3 amended: a transport failure other than a timeout propagates as a
raised `zmq.ZMQError` (the channel resources still being released); only the
timeout is converted to a structured value. -/
theorem send_command_transport_error_propagates (port : Nat) (command : JValue)
    (msg : String) :
    send_command port command (.transportError msg)
      = (.raised "ZMQError", ⟨true, true⟩) := rfl

/-- C4: on every exit path of `send_command` — returned reply, timeout
value, or propagating exception — the `finally` block has closed the socket
and terminated the context. -/
theorem send_command_releases_channel (port : Nat) (command : JValue)
    (outcome : TransportOutcome) :
    (send_command port command outcome).2 = ⟨true, true⟩ := by
  cases outcome with
  | reply v => cases v <;> rfl
  | timeout => rfl
  | transportError m => rfl

/-- C1 counterexample: a request that is not a dict makes the worker loop
raise `ValueError` — no reply of any shape is sent back. -/
theorem worker_nondict_request_raises_cex :
    (workerStep (fun _ _ => .ok .null) (.str "ping")).raised = some "ValueError" ∧
    (workerStep (fun _ _ => .ok .null) (.str "ping")).sent = [] :=
  ⟨rfl, rfl⟩

/-- C1 amended: for a request that is a dict holding a hashable `command`
value, the loop body raises nothing and sends exactly one reply, of shape
`{success: true, result}` or `{success: false, error, traceback?}`; but a
non-dict request raises `ValueError` and a dict without `command` raises
`KeyError`, both escaping the dispatch loop. -/
theorem worker_dict_request_single_reply
    (exec : String → List (String × JValue) → ExecResult)
    (fields : List (String × JValue)) (v : JValue)
    (hcmd : List.lookup "command" fields = some v)
    (hhash : hashableJson v = true) :
    (workerStep exec (.obj fields)).raised = none ∧
    ∃ r, (workerStep exec (.obj fields)).sent = [r] ∧ isReplyShape r = true := by
  simp only [workerStep]
  rw [hcmd]
  dsimp only
  cases v with
  | null => exact ⟨rfl, _, rfl, rfl⟩
  | bool b => cases b <;> exact ⟨rfl, _, rfl, rfl⟩
  | num n => exact ⟨rfl, _, rfl, rfl⟩
  | str cmd =>
      dsimp only
      by_cases hin : workerCommands.contains cmd = true
      · rw [if_pos hin]
        cases exec cmd (fields.filter (fun p => p.1 != "command")) with
        | ok r => exact ⟨rfl, _, rfl, rfl⟩
        | exc msg tb => exact ⟨rfl, _, rfl, rfl⟩
      · rw [if_neg hin]
        exact ⟨rfl, _, rfl, rfl⟩
  | arr elems => simp [hashableJson] at hhash
  | obj fs => simp [hashableJson] at hhash

/-- C1 witness: the reply-shape theorem at a concrete `ping` request. -/
theorem worker_dict_request_single_reply_witness :
    (workerStep (fun _ _ => .ok .null) (.obj [("command", .str "ping")])).raised
        = none ∧
    ∃ r, (workerStep (fun _ _ => .ok .null)
        (.obj [("command", .str "ping")])).sent = [r] ∧ isReplyShape r = true :=
  worker_dict_request_single_reply (fun _ _ => .ok .null)
    [("command", .str "ping")] (.str "ping") rfl rfl

/-- C7 counterexample: the unknown-command reply's error string is
`API does not recognize command frobnicate.`, not `unrecognized command`. -/
theorem worker_unknown_command_message_cex :
    (workerStep (fun _ _ => .ok .null)
        (.obj [("command", .str "frobnicate")])).sent
      = [.obj [("success", .bool false),
               ("error", .str "API does not recognize command frobnicate.")]] ∧
    "API does not recognize command frobnicate." ≠ "unrecognized command" :=
  ⟨rfl, by decide⟩

/-- C7 amended: a dict request naming a command outside the worker's command
set gets exactly the reply `{'success': False, 'error': f'API does not
recognize command {command}.'}` and nothing escapes the loop. -/
theorem worker_unknown_command_reply
    (exec : String → List (String × JValue) → ExecResult)
    (fields : List (String × JValue)) (cmd : String)
    (hcmd : List.lookup "command" fields = some (.str cmd))
    (hnot : workerCommands.contains cmd = false) :
    (workerStep exec (.obj fields)).sent
      = [.obj [("success", .bool false),
               ("error", .str ("API does not recognize command " ++ cmd ++ "."))]] ∧
    (workerStep exec (.obj fields)).raised = none := by
  simp only [workerStep]
  rw [hcmd]
  dsimp only
  rw [if_neg (by rw [hnot]; decide)]
  exact ⟨rfl, rfl⟩

/-- C7 witness: the unknown-command theorem at a concrete request. -/
theorem worker_unknown_command_reply_witness :
    (workerStep (fun _ _ => .ok .null)
        (.obj [("command", .str "do_magic")])).sent
      = [.obj [("success", .bool false),
               ("error", .str ("API does not recognize command " ++ "do_magic" ++ "."))]] ∧
    (workerStep (fun _ _ => .ok .null)
        (.obj [("command", .str "do_magic")])).raised = none :=
  worker_unknown_command_reply (fun _ _ => .ok .null)
    [("command", .str "do_magic")] "do_magic" rfl rfl

/-- Helper: the host component of `tcp://127.0.0.1:<anything>` is
`127.0.0.1`. -/
theorem tcpHost_loopback (t : String) :
    tcpHost ("tcp://127.0.0.1:" ++ t) = "127.0.0.1" := by
  cases t with
  | mk data => rfl

/-- C8: for every port, the worker binds and the proxy connects to an
address whose host is the loopback address `127.0.0.1`. -/
theorem worker_and_proxy_loopback_only (port : Nat) :
    tcpHost (workerBindAddr port) = "127.0.0.1" ∧
    tcpHost (proxyConnectAddr port) = "127.0.0.1" :=
  ⟨tcpHost_loopback (toString port), tcpHost_loopback (toString port)⟩

/-- C9: `verify_api_key` and `is_auth_enabled` both begin by reading
`config.auth.enabled`, an attribute the frozen `AuthConfig` dataclass does
not define — so every call raises `AttributeError` and neither entry point
can return normally, for every configuration, hash function and header. -/
theorem api_key_auth_always_raises :
    (∀ (cfg : AuthConfig) (hashKey : String → String) (x_api_key : Option String),
        verify_api_key cfg hashKey x_api_key = .raised "AttributeError") ∧
    (∀ cfg : AuthConfig, is_auth_enabled cfg = .raised "AttributeError") :=
  ⟨fun _ _ _ => rfl, fun _ => rfl⟩

/-- C5: `send` on a session id missing from the registry returns 404
`Invalid session ID` and its trace is the single registry lookup — no worker
RPC, no activity touch, no telemetry record, no memory poll. -/
theorem send_unknown_session_404 (reg : Registry) (outcome : TransportOutcome)
    (session_id : String) (command : List (String × JValue)) (user : Option User)
    (h : get_server_info reg session_id = none) :
    send reg outcome session_id command user
      = (.httpError 404 "Invalid session ID", [.registryLookup session_id]) := by
  simp [send, h]

/-- C5 witness: the 404 theorem at an empty registry. -/
theorem send_unknown_session_404_witness :
    send [] .timeout "missing" [] none
      = (.httpError 404 "Invalid session ID", [.registryLookup "missing"]) :=
  send_unknown_session_404 [] .timeout "missing" [] none rfl

/-- C6 counterexample: on a failed command (`success: false` reply) the
activity touch still happens, and it happens before the worker RPC: the
trace is lookup, touch, RPC, telemetry (recording `success = false`),
memory poll. -/
theorem send_touch_despite_failure_cex :
    (send [("s1", ⟨6560, none⟩)]
        (.reply (.obj [("success", .bool false), ("error", .str "boom")]))
        "s1" [("command", .str "run_compute")] none).2
      = [.registryLookup "s1", .activityTouch "s1", .workerRpc 6560,
         .telemetryLog "s1" (.str "run_compute") false (some (.str "boom")),
         .memoryPoll "s1"] ∧
    Effect.activityTouch "s1" ∈ (send [("s1", ⟨6560, none⟩)]
        (.reply (.obj [("success", .bool false), ("error", .str "boom")]))
        "s1" [("command", .str "run_compute")] none).2 ∧
    Effect.telemetryLog "s1" (.str "run_compute") false (some (.str "boom"))
      ∈ (send [("s1", ⟨6560, none⟩)]
        (.reply (.obj [("success", .bool false), ("error", .str "boom")]))
        "s1" [("command", .str "run_compute")] none).2 :=
  ⟨rfl, List.Mem.tail _ (List.Mem.head _),
   List.Mem.tail _ (List.Mem.tail _ (List.Mem.tail _ (List.Mem.head _)))⟩

/-- Helper: whatever the wire does, the post-guard code's trace begins with
the activity touch followed by the worker RPC. -/
theorem send_after_guards_trace_head (outcome : TransportOutcome)
    (session_id : String) (command : List (String × JValue)) (info : SessionInfo) :
    ∃ rest, (send_after_guards outcome session_id command info).2
      = Effect.activityTouch session_id :: Effect.workerRpc info.port :: rest := by
  unfold send_after_guards
  cases outcome with
  | reply v => cases v <;> exact ⟨_, rfl⟩
  | timeout => exact ⟨_, rfl⟩
  | transportError m => exact ⟨_, rfl⟩

/-- Helper: the post-guard code ends in a returned value or a propagating
exception, never in an `HTTPException`. -/
theorem send_after_guards_fst_cases (outcome : TransportOutcome)
    (session_id : String) (command : List (String × JValue)) (info : SessionInfo) :
    (∃ v, (send_after_guards outcome session_id command info).1 = .value v) ∨
    (∃ e, (send_after_guards outcome session_id command info).1 = .raised e) := by
  unfold send_after_guards
  cases outcome with
  | reply v =>
      cases v <;> first
        | exact Or.inl ⟨_, rfl⟩
        | exact Or.inr ⟨_, rfl⟩
  | timeout => exact Or.inl ⟨_, rfl⟩
  | transportError m => exact Or.inr ⟨_, rfl⟩

/-- C6 amended: on every request that passes the 404 and ownership guards,
the activity touch happens **before** the worker RPC — the trace starts
lookup, touch, RPC — and it happens whatever the wire and the command's
success do. -/
theorem send_touches_before_rpc (reg : Registry) (outcome : TransportOutcome)
    (session_id : String) (command : List (String × JValue)) (user : Option User)
    (info : SessionInfo)
    (hinfo : get_server_info reg session_id = some info)
    (hown : ownershipBlocked user info.user_id = false) :
    ∃ rest, (send reg outcome session_id command user).2
      = Effect.registryLookup session_id :: Effect.activityTouch session_id ::
        Effect.workerRpc info.port :: rest := by
  obtain ⟨rest, hr⟩ := send_after_guards_trace_head outcome session_id command info
  refine ⟨rest, ?_⟩
  simp only [send, hinfo]
  rw [hown]
  simp only [Bool.false_eq_true, if_false]
  rw [hr]

/-- C6 witness: the touch-before-RPC theorem at a concrete session. -/
theorem send_touches_before_rpc_witness :
    ∃ rest, (send [("s1", ⟨6560, none⟩)] .timeout "s1" [] none).2
      = Effect.registryLookup "s1" :: Effect.activityTouch "s1" ::
        Effect.workerRpc 6560 :: rest :=
  send_touches_before_rpc [("s1", ⟨6560, none⟩)] .timeout "s1" [] none
    ⟨6560, none⟩ rfl rfl

/-- Helper: when the inline ownership test of `send` fires. -/
theorem ownershipBlocked_true_iff (user : Option User) (owner : Option String) :
    ownershipBlocked user owner = true ↔
      ∃ u o, user = some u ∧ owner = some o ∧ o ≠ u.user_id := by
  cases user <;> cases owner <;> simp [ownershipBlocked]

/-- Helper: `_check_ownership` raises exactly the 403 ownership rejection,
and exactly when an authenticated user is present, the stored owner exists
and the two differ. -/
theorem check_ownership_some_iff (reg : Registry) (session_id : String)
    (user : Option User) :
    check_ownership reg session_id user = some (403, ownershipDetail) ↔
      ∃ u o, user = some u ∧ get_session_owner reg session_id = some o ∧
        o ≠ u.user_id := by
  cases user with
  | none => simp [check_ownership]
  | some u =>
      cases hso : get_session_owner reg session_id with
      | none => simp [check_ownership, hso]
      | some owner =>
          simp only [check_ownership, hso]
          by_cases h : owner = u.user_id
          · subst h
            simp
          · simp [h]

/-- Helper: `_check_ownership` either passes or raises the 403 ownership
rejection; it produces nothing else. -/
theorem check_ownership_none_or (reg : Registry) (session_id : String)
    (user : Option User) :
    check_ownership reg session_id user = none ∨
    check_ownership reg session_id user = some (403, ownershipDetail) := by
  unfold check_ownership
  cases user with
  | none => exact Or.inl rfl
  | some u =>
      cases get_session_owner reg session_id with
      | none => exact Or.inl rfl
      | some owner =>
          dsimp only
          by_cases h : (owner != u.user_id) = true
          · rw [if_pos h]; exact Or.inr rfl
          · rw [if_neg h]; exact Or.inl rfl

/-- Helper: when the `send` endpoint answers with the 403 ownership
rejection. -/
theorem send_403_iff (reg : Registry) (outcome : TransportOutcome)
    (session_id : String) (command : List (String × JValue)) (user : Option User) :
    (send reg outcome session_id command user).1
        = .httpError 403 ownershipDetail ↔
      ∃ info u o, get_server_info reg session_id = some info ∧
        user = some u ∧ info.user_id = some o ∧ o ≠ u.user_id := by
  cases hinfo : get_server_info reg session_id with
  | none => simp [send, hinfo]
  | some info =>
      simp only [send, hinfo]
      by_cases hb : ownershipBlocked user info.user_id = true
      · rw [if_pos hb]
        obtain ⟨u, o, hu, ho, hne⟩ := (ownershipBlocked_true_iff _ _).1 hb
        simp only [Option.some.injEq]
        constructor
        · intro _
          exact ⟨info, u, o, rfl, hu, ho, hne⟩
        · intro _
          trivial
      · rw [if_neg hb]
        constructor
        · intro h
          rcases send_after_guards_fst_cases outcome session_id command info with
            ⟨v, hv⟩ | ⟨e, he⟩
          · rw [hv] at h; exact absurd h (by simp)
          · rw [he] at h; exact absurd h (by simp)
        · rintro ⟨info2, u, o, hinfo2, hu, ho, hne⟩
          cases hinfo2
          exact absurd ((ownershipBlocked_true_iff _ _).2 ⟨u, o, hu, ho, hne⟩) hb

/-- Helper: when the `end_session` endpoint answers with the 403 ownership
rejection. -/
theorem end_session_403_iff (reg : Registry) (session_id : String)
    (user : Option User) :
    end_session reg session_id user = .httpError 403 ownershipDetail ↔
      ∃ u o, user = some u ∧ get_session_owner reg session_id = some o ∧
        o ≠ u.user_id := by
  rcases check_ownership_none_or reg session_id user with hc | hc
  · refine iff_of_false ?_ ?_
    · simp only [end_session, hc]
      cases hs : shutdown_server reg session_id <;> simp
    · rintro ⟨u, o, hu, ho, hne⟩
      have := (check_ownership_some_iff reg session_id user).2 ⟨u, o, hu, ho, hne⟩
      rw [hc] at this
      exact Option.noConfusion this
  · refine iff_of_true ?_ ((check_ownership_some_iff reg session_id user).1 hc)
    simp only [end_session, hc]

/-- Helper: when the `session_memory` endpoint answers with the 403
ownership rejection. -/
theorem session_memory_403_iff (reg : Registry) (mem : String → Nat)
    (session_id : String) (user : Option User) :
    session_memory reg mem session_id user = .httpError 403 ownershipDetail ↔
      ∃ u o, user = some u ∧ get_session_owner reg session_id = some o ∧
        o ≠ u.user_id := by
  rcases check_ownership_none_or reg session_id user with hc | hc
  · refine iff_of_false ?_ ?_
    · simp only [session_memory, hc]
      cases hm : get_current_memory_usage reg mem session_id <;> simp
    · rintro ⟨u, o, hu, ho, hne⟩
      have := (check_ownership_some_iff reg session_id user).2 ⟨u, o, hu, ho, hne⟩
      rw [hc] at this
      exact Option.noConfusion this
  · refine iff_of_true ?_ ((check_ownership_some_iff reg session_id user).1 hc)
    simp only [session_memory, hc]

/-- Helper: a nonexistent session id passes `_check_ownership` and
`end_session` falls through to 404. -/
theorem end_session_unknown_404 (reg : Registry) (session_id : String)
    (user : Option User) (h : get_server_info reg session_id = none) :
    end_session reg session_id user = .httpError 404 "Session not found" := by
  unfold get_server_info at h
  cases user with
  | none => simp [end_session, check_ownership, shutdown_server, h]
  | some u => simp [end_session, check_ownership, get_session_owner, shutdown_server, h]

/-- Helper: a nonexistent session id passes `_check_ownership` and
`session_memory` falls through to 404. -/
theorem session_memory_unknown_404 (reg : Registry) (mem : String → Nat)
    (session_id : String) (user : Option User)
    (h : get_server_info reg session_id = none) :
    session_memory reg mem session_id user = .httpError 404 "Session not found" := by
  unfold get_server_info at h
  cases user with
  | none =>
      simp [session_memory, check_ownership, get_current_memory_usage, h]
  | some u =>
      simp [session_memory, check_ownership, get_session_owner,
            get_current_memory_usage, h]

/-- C10: the 403 ownership rejection of `send`, `end_session` and
`session_memory` fires exactly when an authenticated user is present, the
session's stored owner exists, and that owner differs from the user's id —
so a session whose stored owner is `None` is commandable and destroyable by
any authenticated user, and a nonexistent session id passes the ownership
check and falls through to 404. -/
theorem ownership_403_characterization :
    (∀ (reg : Registry) (session_id : String) (user : Option User),
        check_ownership reg session_id user = some (403, ownershipDetail) ↔
          ∃ u o, user = some u ∧ get_session_owner reg session_id = some o ∧
            o ≠ u.user_id) ∧
    (∀ (reg : Registry) (outcome : TransportOutcome) (session_id : String)
        (command : List (String × JValue)) (user : Option User),
        (send reg outcome session_id command user).1
            = .httpError 403 ownershipDetail ↔
          ∃ info u o, get_server_info reg session_id = some info ∧
            user = some u ∧ info.user_id = some o ∧ o ≠ u.user_id) ∧
    (∀ (reg : Registry) (session_id : String) (user : Option User),
        end_session reg session_id user = .httpError 403 ownershipDetail ↔
          ∃ u o, user = some u ∧ get_session_owner reg session_id = some o ∧
            o ≠ u.user_id) ∧
    (∀ (reg : Registry) (mem : String → Nat) (session_id : String)
        (user : Option User),
        session_memory reg mem session_id user = .httpError 403 ownershipDetail ↔
          ∃ u o, user = some u ∧ get_session_owner reg session_id = some o ∧
            o ≠ u.user_id) ∧
    (∀ (reg : Registry) (session_id : String) (user : Option User),
        get_server_info reg session_id = none →
          end_session reg session_id user = .httpError 404 "Session not found") ∧
    (∀ (reg : Registry) (mem : String → Nat) (session_id : String)
        (user : Option User),
        get_server_info reg session_id = none →
          session_memory reg mem session_id user
            = .httpError 404 "Session not found") :=
  ⟨check_ownership_some_iff, send_403_iff, end_session_403_iff,
   session_memory_403_iff, end_session_unknown_404, session_memory_unknown_404⟩

end PhoebeServer
